import Mathlib

/-!
# Verification of `character-card-utils` (src/index.ts)

A shallow embedding of the library's zod schemas and conversion helpers.

Modelling conventions:
* Runtime JavaScript values are modelled by the inductive `Json`.
  JavaScript's `undefined` is modelled as the *absence* of an object key
  (the library never distinguishes a key explicitly set to `undefined`
  from a missing key: jest's `toEqual`, used by its test-suite, identifies
  the two, and zod's `.optional()` accepts both).
* JavaScript numbers carry no arithmetic in this library, so they are
  modelled by `Int`.
* zod's default object semantics (zod 3.21, the declared dependency) are
  modelled faithfully: unknown keys are tolerated and *stripped* from the
  parse output ("strip" mode), required keys must be present and match,
  `.optional()` keys may be absent, the rebuilt output object lists the
  schema's keys in shape order, and field issues are collected in shape
  order with their paths.
* `parse` (throwing) and `safeParse` (tagged result) both become
  `Except (List Issue) Json`: a thrown `ZodError` and a
  `success: false` result both carry the same issue list.
-/

/-- JavaScript values as produced by JSON plus object field order. -/
inductive Json where
  | str (s : String)
  | num (n : Int)
  | bool (b : Bool)
  | null
  | arr (elems : List Json)
  | obj (fields : List (String × Json))

/-- The JavaScript-ish type name zod reports in `received`/`expected`. -/
def Json.typeName : Json → String
  | .str _ => "string"
  | .num _ => "number"
  | .bool _ => "boolean"
  | .null => "null"
  | .arr _ => "array"
  | .obj _ => "object"

/-- One step of a zod issue path: an object key or an array index. -/
inductive PathElem where
  | key (k : String)
  | idx (i : Nat)
deriving DecidableEq, Repr

/-- A single zod issue: path to the offending value, issue code, and the
expected/received descriptions. -/
structure Issue where
  path : List PathElem
  code : String
  expected : String
  received : String
deriving DecidableEq, Repr

/-- Prepend a path step to an issue (zod's path bookkeeping when
descending into an object field or array element). -/
def Issue.prepend (p : PathElem) (i : Issue) : Issue :=
  { i with path := p :: i.path }

/-- A zod schema: whether it accepts a missing (`undefined`) value — zod's
`isOptional()` — its type name for diagnostics, and its parse function. -/
structure Zod where
  expected : String
  accUndefined : Bool
  run : Json → Except (List Issue) Json

/-- `z.string()` -/
def zString : Zod where
  expected := "string"
  accUndefined := false
  run := fun j =>
    match j with
    | .str s => .ok (.str s)
    | other => .error [⟨[], "invalid_type", "string", other.typeName⟩]

/-- `z.number()` -/
def zNumber : Zod where
  expected := "number"
  accUndefined := false
  run := fun j =>
    match j with
    | .num n => .ok (.num n)
    | other => .error [⟨[], "invalid_type", "number", other.typeName⟩]

/-- `z.boolean()` -/
def zBoolean : Zod where
  expected := "boolean"
  accUndefined := false
  run := fun j =>
    match j with
    | .bool b => .ok (.bool b)
    | other => .error [⟨[], "invalid_type", "boolean", other.typeName⟩]

/-- `z.any()`: accepts every value verbatim. -/
def zAny : Zod where
  expected := "any"
  accUndefined := true
  run := fun j => .ok j

/-- `z.literal(lit)` for a string literal: only that exact string passes. -/
def zLiteral (lit : String) : Zod where
  expected := lit
  accUndefined := false
  run := fun j =>
    match j with
    | .str s => if s = lit then .ok (.str s)
                else .error [⟨[], "invalid_literal", lit, s⟩]
    | other => .error [⟨[], "invalid_literal", lit, other.typeName⟩]

/-- `.optional()`: the value, when present, must still match; absence is
handled at the object-field site via `accUndefined`. -/
def zOptional (s : Zod) : Zod :=
  { s with accUndefined := true }

/-- Element-wise array parsing: rebuilt elements, issues tagged with their
index, all collected in order. -/
def runElems (s : Zod) (start : Nat) :
    List Json → Except (List Issue) (List Json)
  | [] => .ok []
  | v :: rest =>
    match s.run v, runElems s (start + 1) rest with
    | .ok v', .ok rest' => .ok (v' :: rest')
    | .ok _, .error es => .error es
    | .error es, .ok _ => .error (es.map (Issue.prepend (.idx start)))
    | .error es, .error es2 =>
        .error (es.map (Issue.prepend (.idx start)) ++ es2)

/-- `z.array(s)` -/
def zArray (s : Zod) : Zod where
  expected := "array"
  accUndefined := false
  run := fun j =>
    match j with
    | .arr xs => (runElems s 0 xs).map .arr
    | other => .error [⟨[], "invalid_type", "array", other.typeName⟩]

/-- Value-wise record parsing: every value parsed under its key. -/
def runValues (s : Zod) :
    List (String × Json) → Except (List Issue) (List (String × Json))
  | [] => .ok []
  | (k, v) :: rest =>
    match s.run v, runValues s rest with
    | .ok v', .ok rest' => .ok ((k, v') :: rest')
    | .ok _, .error es => .error es
    | .error es, .ok _ => .error (es.map (Issue.prepend (.key k)))
    | .error es, .error es2 =>
        .error (es.map (Issue.prepend (.key k)) ++ es2)

/-- `z.record(s)`: any object whose values all match `s`. -/
def zRecord (s : Zod) : Zod where
  expected := "object"
  accUndefined := false
  run := fun j =>
    match j with
    | .obj kvs => (runValues s kvs).map .obj
    | other => .error [⟨[], "invalid_type", "object", other.typeName⟩]

/-- `z.union([a, b, ...])`: first schema that accepts wins; if none does,
a single `invalid_union` issue is reported. -/
def runUnion (ss : List Zod) (j : Json) : Option Json :=
  match ss with
  | [] => none
  | s :: rest =>
    match s.run j with
    | .ok v => some v
    | .error _ => runUnion rest j

/-- `z.union` as a schema. -/
def zUnion (ss : List Zod) : Zod where
  expected := "union"
  accUndefined := false
  run := fun j =>
    match runUnion ss j with
    | some v => .ok v
    | none => .error [⟨[], "invalid_union", "union", j.typeName⟩]

/-- The shape of a `z.object`: its keys with their schemas, in
declaration order. -/
abbrev Shape : Type := List (String × Zod)

/-- First-match lookup of an object key (JavaScript object keys are
unique, so first-match is the lookup). -/
def lookupKey (kvs : List (String × Json)) (k : String) : Option Json :=
  match kvs with
  | [] => none
  | (k', v) :: rest => if k' = k then some v else lookupKey rest k

/-- Parsing of one object field: a missing key is an error unless the
field schema accepts `undefined` (in which case the key is simply left
out of the output); a present key is parsed by its schema. -/
def runField (k : String) (s : Zod) (kvs : List (String × Json)) :
    Except (List Issue) (List (String × Json)) :=
  match lookupKey kvs k with
  | none =>
    if s.accUndefined then .ok []
    else .error [⟨[.key k], "invalid_type", s.expected, "undefined"⟩]
  | some v =>
    match s.run v with
    | .ok v' => .ok [(k, v')]
    | .error es => .error (es.map (Issue.prepend (.key k)))

/-- zod object parsing in default "strip" mode: walk the shape in order;
unknown keys are dropped; the output lists the shape's keys in shape
order; issues from all fields are collected. -/
def runShape (fields : Shape) (kvs : List (String × Json)) :
    Except (List Issue) (List (String × Json)) :=
  match fields with
  | [] => .ok []
  | (k, s) :: rest =>
    match runField k s kvs, runShape rest kvs with
    | .ok h, .ok tail => .ok (h ++ tail)
    | .ok _, .error es => .error es
    | .error es, .ok _ => .error es
    | .error es, .error es2 => .error (es ++ es2)

/-- `z.object(shape)` -/
def zObject (fields : Shape) : Zod where
  expected := "object"
  accUndefined := false
  run := fun j =>
    match j with
    | .obj kvs => (runShape fields kvs).map .obj
    | other => .error [⟨[], "invalid_type", "object", other.typeName⟩]

/-- `a.merge(b)` on object shapes: `b`'s fields override `a`'s, appended
after the non-overridden fields of `a`. -/
def mergeShape (a b : Shape) : Shape :=
  a.filter (fun p => !(b.any (fun q => q.1 = p.1))) ++ b

/-- Shape of the `v1` schema (src/index.ts, `export const v1`). -/
def v1Shape : Shape :=
  [("name", zString),
   ("description", zString),
   ("personality", zString),
   ("scenario", zString),
   ("first_mes", zString),
   ("mes_example", zString)]

/-- `export const v1 = z.object({...})` -/
def v1 : Zod := zObject v1Shape

/-- Shape of the `entry` schema (src/index.ts, `export const entry`). -/
def entryShape : Shape :=
  [("keys", zArray zString),
   ("content", zString),
   ("extensions", zRecord zAny),
   ("enabled", zBoolean),
   ("insertion_order", zNumber),
   ("case_sensitive", zOptional zBoolean),
   ("name", zOptional zString),
   ("priority", zOptional zNumber),
   ("id", zOptional zNumber),
   ("comment", zOptional zString),
   ("selective", zOptional zBoolean),
   ("secondary_keys", zOptional (zArray zString)),
   ("constant", zOptional zBoolean),
   ("position",
     zOptional (zUnion [zLiteral "before_char", zLiteral "after_char"]))]

/-- `export const entry = z.object({...})` -/
def entry : Zod := zObject entryShape

/-- Shape of the `book` schema (src/index.ts, `export const book`). -/
def bookShape : Shape :=
  [("name", zOptional zString),
   ("description", zOptional zString),
   ("scan_depth", zOptional zNumber),
   ("token_budget", zOptional zNumber),
   ("recursive_scanning", zOptional zBoolean),
   ("extensions", zRecord zAny),
   ("entries", zArray entry)]

/-- `export const book = z.object({...})` -/
def book : Zod := zObject bookShape

/-- The V2-only fields merged into `v1` to form `v2`'s `data` shape. -/
def v2DataExtraShape : Shape :=
  [("creator_notes", zString),
   ("system_prompt", zString),
   ("post_history_instructions", zString),
   ("alternate_greetings", zArray zString),
   ("character_book", zOptional book),
   ("tags", zArray zString),
   ("creator", zString),
   ("character_version", zString),
   ("extensions", zRecord zAny)]

/-- `v1.merge(z.object({...}))`: the shape of `v2`'s `data` field. -/
def v2DataShape : Shape := mergeShape v1Shape v2DataExtraShape

/-- Shape of the `v2` schema (src/index.ts, `export const v2`). -/
def v2Shape : Shape :=
  [("spec", zLiteral "chara_card_v2"),
   ("spec_version", zString),
   ("data", zObject v2DataShape)]

/-- `export const v2 = z.object({...})` -/
def v2 : Zod := zObject v2Shape

/-- `export const backfilledV2 = v1.merge(v2)` -/
def backfilledV2 : Zod := zObject (mergeShape v1Shape v2Shape)

/-- The fields of a JavaScript object value (a non-object spreads to
nothing; the library only ever spreads validated objects). -/
def Json.fields : Json → List (String × Json)
  | .obj kvs => kvs
  | _ => []

/-- Member access `j.k`: the value under key `k`; a missing key gives
JavaScript `undefined`, modelled as `.null` (the library only accesses
keys of validated objects, where this never happens). -/
def Json.get (j : Json) (k : String) : Json :=
  match lookupKey j.fields k with
  | some v => v
  | none => .null

/-- One step of JavaScript object-literal semantics: `k: v` after a
spread overrides an existing key in place, otherwise appends the key. -/
def setKey (kvs : List (String × Json)) (k : String) (v : Json) :
    List (String × Json) :=
  if kvs.any (fun p => p.1 = k) then
    kvs.map (fun p => if p.1 = k then (k, v) else p)
  else kvs ++ [(k, v)]

/-- `{...base, k1: v1, ..., kn: vn}` -/
def spread (base : Json) (updates : List (String × Json)) : Json :=
  .obj (updates.foldl (fun acc p => setKey acc p.1 p.2) base.fields)

/-- `export const v1ToV2 = (v1Card) => ({spec: ..., spec_version: ...,
data: {...v1Card, creator_notes: '', ...}})`.  The source writes
`character_book: undefined`, i.e. the key is unset (see the module
comment on `undefined`). -/
def v1ToV2 (v1Card : Json) : Json :=
  .obj [("spec", .str "chara_card_v2"),
        ("spec_version", .str "2.0"),
        ("data", spread v1Card
          [("creator_notes", .str ""),
           ("system_prompt", .str ""),
           ("post_history_instructions", .str ""),
           ("alternate_greetings", .arr []),
           ("tags", .arr []),
           ("creator", .str ""),
           ("character_version", .str ""),
           ("extensions", .obj [])])]

/-- `export const backfillV2 = (v2Card) => ({...v2Card,
name: v2Card.data.name, ...})` -/
def backfillV2 (v2Card : Json) : Json :=
  spread v2Card
    [("name", (v2Card.get "data").get "name"),
     ("description", (v2Card.get "data").get "description"),
     ("personality", (v2Card.get "data").get "personality"),
     ("scenario", (v2Card.get "data").get "scenario"),
     ("first_mes", (v2Card.get "data").get "first_mes"),
     ("mes_example", (v2Card.get "data").get "mes_example")]

/-- The fixed literal backfilled by `backfillV2WithObsolescenceNotice`. -/
def obsolescenceNotice : String :=
  "This is a V2 Character Card. Please update your frontend."

/-- `export const backfillV2WithObsolescenceNotice = (v2Card) =>
({...v2Card, name: obsolescenceNotice, ...})` -/
def backfillV2WithObsolescenceNotice (v2Card : Json) : Json :=
  spread v2Card
    [("name", .str obsolescenceNotice),
     ("description", .str obsolescenceNotice),
     ("personality", .str obsolescenceNotice),
     ("scenario", .str obsolescenceNotice),
     ("first_mes", .str obsolescenceNotice),
     ("mes_example", .str obsolescenceNotice)]

/-- `export const parseToV2 = (data) => {...}`: try `v2.safeParse`,
fall back to `v1.safeParse` plus `v1ToV2`, otherwise throw the v2
attempt's error. -/
def parseToV2 (data : Json) : Except (List Issue) Json :=
  match v2.run data with
  | .ok d => .ok d
  | .error e =>
    match v1.run data with
    | .ok c => .ok (v1ToV2 c)
    | .error _ => .error e

/-- `export const safeParseToV2 = (data) => {...}`: like `parseToV2`
but the V1 branch re-validates `v1ToV2`'s result through `v2.safeParse`,
and the result is the tagged `SafeParseReturnType`. -/
def safeParseToV2 (data : Json) : Except (List Issue) Json :=
  match v2.run data with
  | .ok d => .ok d
  | .error e =>
    match v1.run data with
    | .ok c => v2.run (v1ToV2 c)
    | .error _ => .error e

/-- A canonical valid V1 document: exactly the six schema fields, in
schema order. Every valid V1 document is, up to JavaScript-irrelevant
key ordering, of this form. -/
def mkV1 (n de pe sc fm me : String) : Json :=
  .obj [("name", .str n), ("description", .str de),
        ("personality", .str pe), ("scenario", .str sc),
        ("first_mes", .str fm), ("mes_example", .str me)]

/-- A canonical `data` object of a V2 document: exactly the schema
fields in schema order, with `character_book` present iff `cb` is
`some`. -/
def mkV2Data (n de pe sc fm me cn sp phi : String) (ag : List String)
    (cb : Option Json) (tags : List String) (cr cv : String)
    (ext : List (String × Json)) : Json :=
  .obj ([("name", .str n), ("description", .str de),
         ("personality", .str pe), ("scenario", .str sc),
         ("first_mes", .str fm), ("mes_example", .str me),
         ("creator_notes", .str cn), ("system_prompt", .str sp),
         ("post_history_instructions", .str phi),
         ("alternate_greetings", .arr (ag.map .str))]
    ++ (match cb with | some b => [("character_book", b)] | none => [])
    ++ [("tags", .arr (tags.map .str)), ("creator", .str cr),
        ("character_version", .str cv), ("extensions", .obj ext)])

/-- A canonical valid V2 document: exactly the schema fields in schema
order. Every valid V2 document is, up to JavaScript-irrelevant key
ordering, of this form (with `cb` a valid character book when present). -/
def mkV2 (sv n de pe sc fm me cn sp phi : String) (ag : List String)
    (cb : Option Json) (tags : List String) (cr cv : String)
    (ext : List (String × Json)) : Json :=
  .obj [("spec", .str "chara_card_v2"), ("spec_version", .str sv),
        ("data", mkV2Data n de pe sc fm me cn sp phi ag cb tags cr cv ext)]

/-- A canonical V2 document whose `spec` field holds an arbitrary value
`spec` instead of the literal: identical to `mkV2` everywhere else. -/
def mkV2WithSpec (spec : Json) (sv n de pe sc fm me cn sp phi : String)
    (ag : List String) (cb : Option Json) (tags : List String)
    (cr cv : String) (ext : List (String × Json)) : Json :=
  .obj [("spec", spec), ("spec_version", .str sv),
        ("data", mkV2Data n de pe sc fm me cn sp phi ag cb tags cr cv ext)]

/-- `success` flag of a parse attempt (zod's `SafeParseReturnType`
discriminant). -/
def exOk {ε α : Type} : Except ε α → Bool
  | .ok _ => true
  | .error _ => false

/-- A small concrete valid character book (no optional fields, no
entries). -/
def sampleBook : Json :=
  .obj [("extensions", .obj []), ("entries", .arr [])]

/-- A concrete valid V2 card, used as a witness input. -/
def sampleV2 : Json :=
  mkV2 "2.0" "Mary" "a woman" "generous" "loves" "Hello!" "" "my card"
    "" "sys" ["Heeey!"] none ["female", "oc"] "darkpriest" "" []

/-- A concrete valid V2 card carrying a character book, used as a
witness input. -/
def sampleV2WithBook : Json :=
  mkV2 "2.0" "John" "a man" "cruel" "hates" "Hi!" "" "notes" "" ""
    [] (some sampleBook) [] "" "1.0" [("chub", .num 7)]

/-- The issues the `v2` validator reports on the empty object. -/
def v2EmptyObjIssues : List Issue :=
  [⟨[.key "spec"], "invalid_type", "chara_card_v2", "undefined"⟩,
   ⟨[.key "spec_version"], "invalid_type", "string", "undefined"⟩,
   ⟨[.key "data"], "invalid_type", "object", "undefined"⟩]

/-- The issues the `v1` validator reports on the empty object. -/
def v1EmptyObjIssues : List Issue :=
  [⟨[.key "name"], "invalid_type", "string", "undefined"⟩,
   ⟨[.key "description"], "invalid_type", "string", "undefined"⟩,
   ⟨[.key "personality"], "invalid_type", "string", "undefined"⟩,
   ⟨[.key "scenario"], "invalid_type", "string", "undefined"⟩,
   ⟨[.key "first_mes"], "invalid_type", "string", "undefined"⟩,
   ⟨[.key "mes_example"], "invalid_type", "string", "undefined"⟩]

/-- A valid V2 card followed by one extra unknown top-level field: the
input of the C1 counterexample. -/
def sampleV2Extra : Json :=
  .obj (sampleV2.fields ++ [("chub_meta", .num 7)])

/-- `z.string()` accepts any string verbatim. -/
theorem zString_run_str (s : String) :
    zString.run (.str s) = .ok (.str s) := rfl

/-- `z.any()` accepts anything verbatim. -/
theorem zAny_run (j : Json) : zAny.run j = .ok j := rfl

/-- A string literal schema accepts its own literal. -/
theorem zLiteral_run_self (lit : String) :
    (zLiteral lit).run (.str lit) = .ok (.str lit) := by
  simp [zLiteral]

/-- `.optional()` does not change how present values are parsed. -/
theorem zOptional_run (s : Zod) (j : Json) :
    (zOptional s).run j = s.run j := rfl

/-- `.optional()` accepts a missing value. -/
theorem zOptional_accUndefined (s : Zod) :
    (zOptional s).accUndefined = true := rfl

/-- An array of strings re-parses to itself under `z.array(z.string())`. -/
theorem runElems_strings (k : Nat) (l : List String) :
    runElems zString k (l.map .str) = .ok (l.map .str) := by
  induction l generalizing k with
  | nil => rfl
  | cons x xs ih => simp [runElems, zString_run_str, ih]

/-- `z.array(z.string())` accepts a string array verbatim. -/
theorem zArray_run_strings (l : List String) :
    (zArray zString).run (.arr (l.map .str)) = .ok (.arr (l.map .str)) := by
  simp [zArray, runElems_strings, Except.map]

/-- A record of arbitrary values re-parses to itself under
`z.record(z.any())`. -/
theorem runValues_any (kvs : List (String × Json)) :
    runValues zAny kvs = .ok kvs := by
  induction kvs with
  | cons p rest ih => cases p with | mk k v => simp [runValues, zAny_run, ih]
  | nil => rfl

/-- `z.record(z.any())` accepts any object verbatim. -/
theorem zRecord_run_any (kvs : List (String × Json)) :
    (zRecord zAny).run (.obj kvs) = .ok (.obj kvs) := by
  simp [zRecord, runValues_any, Except.map]

/-- Every canonical V1 document validates to itself. -/
theorem v1_run_mkV1 (n de pe sc fm me : String) :
    v1.run (mkV1 n de pe sc fm me) = .ok (mkV1 n de pe sc fm me) := rfl

/-- Successful object parsing decomposes into the first field and the
rest of the shape. -/
theorem runShape_cons_ok (k : String) (s : Zod) (rest : Shape)
    (kvs : List (String × Json)) (out : List (String × Json))
    (hmain : runShape ((k, s) :: rest) kvs = .ok out) :
    ∃ h t, runField k s kvs = .ok h ∧ runShape rest kvs = .ok t ∧
      out = h ++ t := by
  cases hh : runField k s kvs with
  | error es =>
    cases ht : runShape rest kvs with
    | error es2 => simp [runShape, hh, ht] at hmain
    | ok t => simp [runShape, hh, ht] at hmain
  | ok h =>
    cases ht : runShape rest kvs with
    | error es => simp [runShape, hh, ht] at hmain
    | ok t =>
      simp [runShape, hh, ht] at hmain
      exact ⟨h, t, rfl, rfl, hmain.symm⟩

/-- If a composed shape `a ++ b` parses an object, so does `b` alone. -/
theorem runShape_append_ok (a b : Shape) (kvs : List (String × Json))
    (out : List (String × Json))
    (h : runShape (a ++ b) kvs = .ok out) :
    ∃ o, runShape b kvs = .ok o := by
  induction a generalizing out with
  | nil => exact ⟨out, h⟩
  | cons f a ih =>
    cases f with
    | mk k s =>
      rw [List.cons_append] at h
      obtain ⟨h1, t, _, ht, rfl⟩ := runShape_cons_ok _ _ _ _ _ h
      exact ih t ht

/-- A required field that parses successfully was present and produced
exactly one output key. -/
theorem runField_req_ok (k : String) (s : Zod)
    (kvs : List (String × Json)) (o : List (String × Json))
    (hreq : s.accUndefined = false) (h : runField k s kvs = .ok o) :
    ∃ v v', lookupKey kvs k = some v ∧ s.run v = .ok v' ∧
      o = [(k, v')] := by
  cases hl : lookupKey kvs k with
  | none => simp [runField, hl, hreq] at h
  | some v =>
    cases hr : s.run v with
    | error es => simp [runField, hl, hr] at h
    | ok v' =>
      simp [runField, hl, hr] at h
      exact ⟨v, v', rfl, hr, h.symm⟩

/-- `z.string()` only accepts strings, and returns them unchanged. -/
theorem zString_ok_inv (v w : Json) (h : zString.run v = .ok w) :
    ∃ s, v = .str s ∧ w = .str s := by
  cases v with
  | str s =>
    simp [zString] at h
    exact ⟨s, rfl, h.symm⟩
  | num n => simp [zString] at h
  | bool b => simp [zString] at h
  | null => simp [zString] at h
  | arr xs => simp [zString] at h
  | obj kvs => simp [zString] at h

/-- The `v1` validator's output is always a canonical V1 document. -/
theorem v1_ok_inv (x c : Json) (h : v1.run x = .ok c) :
    ∃ n de pe sc fm me, c = mkV1 n de pe sc fm me := by
  cases x with
  | obj kvs =>
    simp only [v1, zObject] at h
    cases hs : runShape v1Shape kvs with
    | error es => rw [hs] at h; simp [Except.map] at h
    | ok fs =>
      rw [hs] at h
      simp [Except.map] at h
      simp only [v1Shape] at hs
      obtain ⟨o1, t1, hf1, hs1, rfl⟩ := runShape_cons_ok _ _ _ _ _ hs
      obtain ⟨o2, t2, hf2, hs2, rfl⟩ := runShape_cons_ok _ _ _ _ _ hs1
      obtain ⟨o3, t3, hf3, hs3, rfl⟩ := runShape_cons_ok _ _ _ _ _ hs2
      obtain ⟨o4, t4, hf4, hs4, rfl⟩ := runShape_cons_ok _ _ _ _ _ hs3
      obtain ⟨o5, t5, hf5, hs5, rfl⟩ := runShape_cons_ok _ _ _ _ _ hs4
      obtain ⟨o6, t6, hf6, hs6, rfl⟩ := runShape_cons_ok _ _ _ _ _ hs5
      obtain ⟨v1x, w1, _, hr1, rfl⟩ := runField_req_ok _ _ _ _ rfl hf1
      obtain ⟨v2x, w2, _, hr2, rfl⟩ := runField_req_ok _ _ _ _ rfl hf2
      obtain ⟨v3x, w3, _, hr3, rfl⟩ := runField_req_ok _ _ _ _ rfl hf3
      obtain ⟨v4x, w4, _, hr4, rfl⟩ := runField_req_ok _ _ _ _ rfl hf4
      obtain ⟨v5x, w5, _, hr5, rfl⟩ := runField_req_ok _ _ _ _ rfl hf5
      obtain ⟨v6x, w6, _, hr6, rfl⟩ := runField_req_ok _ _ _ _ rfl hf6
      obtain ⟨n, _, rfl⟩ := zString_ok_inv _ _ hr1
      obtain ⟨de, _, rfl⟩ := zString_ok_inv _ _ hr2
      obtain ⟨pe, _, rfl⟩ := zString_ok_inv _ _ hr3
      obtain ⟨sc, _, rfl⟩ := zString_ok_inv _ _ hr4
      obtain ⟨fm, _, rfl⟩ := zString_ok_inv _ _ hr5
      obtain ⟨me, _, rfl⟩ := zString_ok_inv _ _ hr6
      simp [runShape] at hs6
      subst hs6
      exact ⟨n, de, pe, sc, fm, me, by simp [mkV1, h.symm]⟩
  | str s => simp [v1, zObject] at h
  | num n => simp [v1, zObject] at h
  | bool b => simp [v1, zObject] at h
  | null => simp [v1, zObject] at h
  | arr xs => simp [v1, zObject] at h

/-- Every canonical V2 document (with a valid book, when present)
validates to itself. -/
theorem v2_run_mkV2 (sv n de pe sc fm me cn sp phi : String)
    (ag : List String) (cb : Option Json) (tags : List String)
    (cr cv : String) (ext : List (String × Json))
    (hcb : ∀ b, cb = some b → book.run b = .ok b) :
    v2.run (mkV2 sv n de pe sc fm me cn sp phi ag cb tags cr cv ext) =
      .ok (mkV2 sv n de pe sc fm me cn sp phi ag cb tags cr cv ext) := by
  cases cb with
  | none =>
    simp [v2, v2Shape, v2DataShape, v2DataExtraShape, v1Shape, mergeShape,
      mkV2, mkV2Data, zObject, runShape, runField, lookupKey, zString_run_str,
      zLiteral_run_self, zOptional_run, zOptional_accUndefined,
      zArray_run_strings, zRecord_run_any, Except.map]
  | some b =>
    have hb := hcb b rfl
    simp [v2, v2Shape, v2DataShape, v2DataExtraShape, v1Shape, mergeShape,
      mkV2, mkV2Data, zObject, runShape, runField, lookupKey, zString_run_str,
      zLiteral_run_self, zOptional_run, zOptional_accUndefined,
      zArray_run_strings, zRecord_run_any, hb, Except.map]

/-- Appending an unrelated key to an object does not change a lookup. -/
theorem lookupKey_append_single (kvs : List (String × Json))
    (k k0 : String) (v : Json) (hne : k ≠ k0) :
    lookupKey (kvs ++ [(k, v)]) k0 = lookupKey kvs k0 := by
  induction kvs with
  | nil => simp [lookupKey, hne]
  | cons p rest ih =>
    cases p with
    | mk k2 w =>
      by_cases h : k2 = k0
      · simp [lookupKey, h]
      · simp [lookupKey, h, ih]

/-- Appending an unrelated key does not change a field's parse. -/
theorem runField_append_single (k0 : String) (s : Zod)
    (kvs : List (String × Json)) (k : String) (v : Json)
    (hne : k ≠ k0) :
    runField k0 s (kvs ++ [(k, v)]) = runField k0 s kvs := by
  simp [runField, lookupKey_append_single kvs k k0 v hne]

/-- Appending a key foreign to the shape does not change object
parsing: zod's strip mode ignores unknown keys. -/
theorem runShape_append_single (fields : Shape)
    (kvs : List (String × Json)) (k : String) (v : Json)
    (hk : ∀ p ∈ fields, p.1 ≠ k) :
    runShape fields (kvs ++ [(k, v)]) = runShape fields kvs := by
  induction fields with
  | nil => rfl
  | cons f rest ih =>
    cases f with
    | mk k0 s =>
      have h0 : k ≠ k0 :=
        fun he => (hk (k0, s) (List.mem_cons_self _ _)) he.symm
      rw [runShape, runShape,
        runField_append_single k0 s kvs k v h0,
        ih (fun p hp => hk p (List.mem_cons_of_mem _ hp))]

/-- If the first field of a shape fails, the whole object fails. -/
theorem runShape_head_err (k : String) (s : Zod) (rest : Shape)
    (kvs : List (String × Json)) (es : List Issue)
    (hf : runField k s kvs = .error es) :
    ∃ es2, runShape ((k, s) :: rest) kvs = .error es2 := by
  cases ht : runShape rest kvs with
  | ok t => exact ⟨es, by simp [runShape, hf, ht]⟩
  | error es2 => exact ⟨es ++ es2, by simp [runShape, hf, ht]⟩

/-- A string literal schema rejects every value other than its
literal. -/
theorem zLiteral_run_ne (j : Json) (lit : String)
    (hne : j ≠ .str lit) : ∃ es, (zLiteral lit).run j = .error es := by
  cases j with
  | str s =>
    have hs : ¬(s = lit) := fun h => hne (by rw [h])
    exact ⟨[⟨[], "invalid_literal", lit, s⟩], by simp [zLiteral, hs]⟩
  | num n => exact ⟨_, rfl⟩
  | bool b => exact ⟨_, rfl⟩
  | null => exact ⟨_, rfl⟩
  | arr xs => exact ⟨_, rfl⟩
  | obj kvs => exact ⟨_, rfl⟩

/-- Converting a canonical V1 card yields the canonical V2 card with
the documented defaults and no character book. -/
theorem v1ToV2_mkV1_eq (n de pe sc fm me : String) :
    v1ToV2 (mkV1 n de pe sc fm me) =
      mkV2 "2.0" n de pe sc fm me "" "" "" [] none [] "" "" [] := by
  simp [v1ToV2, mkV1, mkV2, mkV2Data, spread, setKey, Json.fields,
    List.foldl]

/-- The result of converting a canonical V1 card is a valid V2 card
that re-validates to itself. -/
theorem v2_run_v1ToV2_mkV1 (n de pe sc fm me : String) :
    v2.run (v1ToV2 (mkV1 n de pe sc fm me)) =
      .ok (v1ToV2 (mkV1 n de pe sc fm me)) := by
  rw [v1ToV2_mkV1_eq]
  exact v2_run_mkV2 "2.0" n de pe sc fm me "" "" "" [] none [] "" "" []
    (fun b hb => nomatch hb)

/-- C1 (as written, refuted): the `v2` validator accepts
`sampleV2Extra`, which carries the unknown extra top-level field
`chub_meta`, and `parseToV2` returns the validator's output — but that
output is `sampleV2`, which is not structurally equal to the input:
the extra field has been stripped. -/
theorem v2_extra_field_not_preserved_cex :
    v2.run sampleV2Extra = .ok sampleV2 ∧
    parseToV2 sampleV2Extra = .ok sampleV2 ∧
    sampleV2 ≠ sampleV2Extra :=
  ⟨rfl, rfl, by simp [sampleV2, sampleV2Extra, mkV2, mkV2Data, Json.fields]⟩

/-- C1 (amended): on input accepted by the `v2` validator with an extra
unknown top-level field, validation still succeeds with the same output
(the extra field is tolerated, not rejected), and `parseToV2` returns
that output; but the extra field is *stripped*, not preserved: every
successful `v2` output carries exactly the top-level keys `spec`,
`spec_version`, `data`. -/
theorem v2_extra_fields_tolerated_but_stripped :
    (∀ (kvs : List (String × Json)) (k : String) (v : Json) (out : Json),
      k ≠ "spec" → k ≠ "spec_version" → k ≠ "data" →
      v2.run (.obj kvs) = .ok out →
      v2.run (.obj (kvs ++ [(k, v)])) = .ok out ∧
      parseToV2 (.obj (kvs ++ [(k, v)])) = .ok out) ∧
    (∀ (j out : Json), v2.run j = .ok out →
      ∃ a b c, out = .obj [("spec", a), ("spec_version", b), ("data", c)]) := by
  constructor
  · intro kvs k v out h1 h2 h3 hrun
    have hk : ∀ p ∈ v2Shape, (p : String × Zod).1 ≠ k := by
      intro p hp
      simp only [v2Shape, List.mem_cons, List.mem_singleton,
        List.not_mem_nil, or_false] at hp
      rcases hp with rfl | rfl | rfl
      · exact fun he => h1 he.symm
      · exact fun he => h2 he.symm
      · exact fun he => h3 he.symm
    have hv2 : v2.run (.obj (kvs ++ [(k, v)])) = .ok out := by
      simp only [v2, zObject] at hrun ⊢
      rw [runShape_append_single v2Shape kvs k v hk]
      exact hrun
    exact ⟨hv2, by simp [parseToV2, hv2]⟩
  · intro j out h
    cases j with
    | obj kvs =>
      simp only [v2, zObject] at h
      cases hs : runShape v2Shape kvs with
      | error es => rw [hs] at h; simp [Except.map] at h
      | ok fs =>
        rw [hs] at h
        simp [Except.map] at h
        simp only [v2Shape] at hs
        obtain ⟨o1, t1, hf1, hs1, rfl⟩ := runShape_cons_ok _ _ _ _ _ hs
        obtain ⟨o2, t2, hf2, hs2, rfl⟩ := runShape_cons_ok _ _ _ _ _ hs1
        obtain ⟨o3, t3, hf3, hs3, rfl⟩ := runShape_cons_ok _ _ _ _ _ hs2
        obtain ⟨va, wa, _, _, rfl⟩ := runField_req_ok _ _ _ _ rfl hf1
        obtain ⟨vb, wb, _, _, rfl⟩ := runField_req_ok _ _ _ _ rfl hf2
        obtain ⟨vc, wc, _, _, rfl⟩ := runField_req_ok _ _ _ _ rfl hf3
        simp [runShape] at hs3
        subst hs3
        exact ⟨wa, wb, wc, by simp [h.symm]⟩
    | str s => simp [v2, zObject] at h
    | num n => simp [v2, zObject] at h
    | bool b => simp [v2, zObject] at h
    | null => simp [v2, zObject] at h
    | arr xs => simp [v2, zObject] at h

/-- Witness for C1's amended theorem at a concrete input: appending the
unknown field `chub_meta` to the fields of `sampleV2` still validates,
with the same output. -/
theorem v2_extra_fields_tolerated_but_stripped_witness :
    v2.run (.obj ((mkV2 "2.0" "Mary" "a woman" "generous" "loves"
        "Hello!" "" "my card" "" "sys" ["Heeey!"] none ["female", "oc"]
        "darkpriest" "" []).fields)) =
      .ok sampleV2 ∧
    v2.run (.obj ((mkV2 "2.0" "Mary" "a woman" "generous" "loves"
        "Hello!" "" "my card" "" "sys" ["Heeey!"] none ["female", "oc"]
        "darkpriest" "" []).fields ++ [("chub_meta", .num 7)])) =
      .ok sampleV2 :=
  ⟨rfl,
    (v2_extra_fields_tolerated_but_stripped.1
      (mkV2 "2.0" "Mary" "a woman" "generous" "loves" "Hello!" ""
        "my card" "" "sys" ["Heeey!"] none ["female", "oc"] "darkpriest"
        "" []).fields
      "chub_meta" (.num 7) sampleV2
      (by decide) (by decide) (by decide) rfl).1⟩

/-- C2: a document on which the `v2` validator succeeds returning the
document itself (every valid V2 document, in validator-canonical form,
does) is returned unchanged by `parseToV2`. -/
theorem parseToV2_valid_v2_roundtrip (d : Json)
    (h : v2.run d = .ok d) : parseToV2 d = .ok d := by
  simp [parseToV2, h]

/-- Witness for C2 at the concrete card `sampleV2`. -/
theorem parseToV2_valid_v2_roundtrip_witness :
    v2.run sampleV2 = .ok sampleV2 ∧ parseToV2 sampleV2 = .ok sampleV2 :=
  ⟨rfl, parseToV2_valid_v2_roundtrip sampleV2 rfl⟩

/-- C3: converting any valid V1 document succeeds and yields a V2
document with `spec` the fixed literal, `spec_version` `"2.0"`, the six
V1 fields unchanged inside `data`, every V2-only string field empty,
empty `alternate_greetings`/`tags`, an empty `extensions` map, and no
`character_book` key (see `mkV2`); the result moreover re-validates as
V2. -/
theorem v1ToV2_upgrade_defaults (n de pe sc fm me : String) :
    v1.run (mkV1 n de pe sc fm me) = .ok (mkV1 n de pe sc fm me) ∧
    v1ToV2 (mkV1 n de pe sc fm me) =
      mkV2 "2.0" n de pe sc fm me "" "" "" [] none [] "" "" [] ∧
    v2.run (v1ToV2 (mkV1 n de pe sc fm me)) =
      .ok (v1ToV2 (mkV1 n de pe sc fm me)) :=
  ⟨v1_run_mkV1 n de pe sc fm me, v1ToV2_mkV1_eq n de pe sc fm me,
    v2_run_v1ToV2_mkV1 n de pe sc fm me⟩

/-- C4: when both the V2 and the V1 validation attempts fail,
`parseToV2` throws exactly the V2 attempt's error and `safeParseToV2`
returns a failure carrying that same error. -/
theorem parseToV2_double_failure_v2_error (j : Json) (e2 : List Issue)
    (h2 : v2.run j = .error e2) (h1 : ∃ e1, v1.run j = .error e1) :
    parseToV2 j = .error e2 ∧ safeParseToV2 j = .error e2 := by
  obtain ⟨e1, h1⟩ := h1
  exact ⟨by simp [parseToV2, h2, h1], by simp [safeParseToV2, h2, h1]⟩

/-- Witness for C4 at the empty object, on which both validators fail
with different errors; the reported error is the V2 one. -/
theorem parseToV2_double_failure_v2_error_witness :
    v2.run (.obj []) = .error v2EmptyObjIssues ∧
    v1.run (.obj []) = .error v1EmptyObjIssues ∧
    v2EmptyObjIssues ≠ v1EmptyObjIssues ∧
    (parseToV2 (.obj []) = .error v2EmptyObjIssues ∧
     safeParseToV2 (.obj []) = .error v2EmptyObjIssues) :=
  ⟨rfl, rfl, by decide,
    parseToV2_double_failure_v2_error (.obj []) v2EmptyObjIssues rfl
      ⟨v1EmptyObjIssues, rfl⟩⟩

/-- The shape of `backfillV2` on a document with the canonical three
top-level keys: the six V1 keys are appended, each holding the
corresponding member of the `data` object. -/
theorem backfillV2_top (spv svv dt : Json) :
    backfillV2 (.obj [("spec", spv), ("spec_version", svv), ("data", dt)]) =
      .obj [("spec", spv), ("spec_version", svv), ("data", dt),
        ("name", dt.get "name"), ("description", dt.get "description"),
        ("personality", dt.get "personality"),
        ("scenario", dt.get "scenario"),
        ("first_mes", dt.get "first_mes"),
        ("mes_example", dt.get "mes_example")] := by
  simp [backfillV2, spread, setKey, Json.get, Json.fields, lookupKey,
    List.foldl]

/-- The shape of `backfillV2WithObsolescenceNotice` on a document with
the canonical three top-level keys: the six V1 keys are appended, each
holding the notice string. -/
theorem backfillV2_notice_top (spv svv dt : Json) :
    backfillV2WithObsolescenceNotice
        (.obj [("spec", spv), ("spec_version", svv), ("data", dt)]) =
      .obj [("spec", spv), ("spec_version", svv), ("data", dt),
        ("name", .str obsolescenceNotice),
        ("description", .str obsolescenceNotice),
        ("personality", .str obsolescenceNotice),
        ("scenario", .str obsolescenceNotice),
        ("first_mes", .str obsolescenceNotice),
        ("mes_example", .str obsolescenceNotice)] := by
  simp [backfillV2WithObsolescenceNotice, spread, setKey, Json.get,
    Json.fields, lookupKey, List.foldl]

/-- C5: `backfillV2` on any valid V2 document copies each of the six
inner `data` fields to the corresponding top-level field and leaves
`data` untouched. -/
theorem backfillV2_copies_v1_fields (sv n de pe sc fm me cn sp phi : String)
    (ag : List String) (cb : Option Json) (tags : List String)
    (cr cv : String) (ext : List (String × Json)) (d : Json)
    (hd : d = mkV2 sv n de pe sc fm me cn sp phi ag cb tags cr cv ext)
    (hcb : ∀ b, cb = some b → book.run b = .ok b) :
    v2.run d = .ok d ∧
    (backfillV2 d).get "name" = (d.get "data").get "name" ∧
    (backfillV2 d).get "description" = (d.get "data").get "description" ∧
    (backfillV2 d).get "personality" = (d.get "data").get "personality" ∧
    (backfillV2 d).get "scenario" = (d.get "data").get "scenario" ∧
    (backfillV2 d).get "first_mes" = (d.get "data").get "first_mes" ∧
    (backfillV2 d).get "mes_example" = (d.get "data").get "mes_example" ∧
    (backfillV2 d).get "data" = d.get "data" := by
  subst hd
  refine ⟨v2_run_mkV2 sv n de pe sc fm me cn sp phi ag cb tags cr cv ext
    hcb, ?_, ?_, ?_, ?_, ?_, ?_, ?_⟩ <;>
  · simp only [mkV2]
    rw [backfillV2_top]
    simp [Json.get, Json.fields, lookupKey]

/-- Witness for C5 at the concrete card `sampleV2WithBook` (which
carries a character book and a nonempty extensions map). -/
theorem backfillV2_copies_v1_fields_witness :
    v2.run sampleV2WithBook = .ok sampleV2WithBook ∧
    (backfillV2 sampleV2WithBook).get "name" =
      (sampleV2WithBook.get "data").get "name" ∧
    (backfillV2 sampleV2WithBook).get "description" =
      (sampleV2WithBook.get "data").get "description" ∧
    (backfillV2 sampleV2WithBook).get "personality" =
      (sampleV2WithBook.get "data").get "personality" ∧
    (backfillV2 sampleV2WithBook).get "scenario" =
      (sampleV2WithBook.get "data").get "scenario" ∧
    (backfillV2 sampleV2WithBook).get "first_mes" =
      (sampleV2WithBook.get "data").get "first_mes" ∧
    (backfillV2 sampleV2WithBook).get "mes_example" =
      (sampleV2WithBook.get "data").get "mes_example" ∧
    (backfillV2 sampleV2WithBook).get "data" =
      sampleV2WithBook.get "data" :=
  backfillV2_copies_v1_fields "2.0" "John" "a man" "cruel" "hates" "Hi!"
    "" "notes" "" "" [] (some sampleBook) [] "" "1.0" [("chub", .num 7)]
    sampleV2WithBook rfl
    (fun b hb => by injection hb with h; subst h; rfl)

/-- C6: `backfillV2WithObsolescenceNotice` on any valid V2 document sets
all six top-level V1 fields to the fixed notice string, regardless of
`data`'s contents, and leaves `data` untouched. -/
theorem backfillV2_obsolescence_overwrites (sv n de pe sc fm me cn sp phi : String)
    (ag : List String) (cb : Option Json) (tags : List String)
    (cr cv : String) (ext : List (String × Json)) (d : Json)
    (hd : d = mkV2 sv n de pe sc fm me cn sp phi ag cb tags cr cv ext)
    (hcb : ∀ b, cb = some b → book.run b = .ok b) :
    v2.run d = .ok d ∧
    (backfillV2WithObsolescenceNotice d).get "name" =
      .str "This is a V2 Character Card. Please update your frontend." ∧
    (backfillV2WithObsolescenceNotice d).get "description" =
      .str "This is a V2 Character Card. Please update your frontend." ∧
    (backfillV2WithObsolescenceNotice d).get "personality" =
      .str "This is a V2 Character Card. Please update your frontend." ∧
    (backfillV2WithObsolescenceNotice d).get "scenario" =
      .str "This is a V2 Character Card. Please update your frontend." ∧
    (backfillV2WithObsolescenceNotice d).get "first_mes" =
      .str "This is a V2 Character Card. Please update your frontend." ∧
    (backfillV2WithObsolescenceNotice d).get "mes_example" =
      .str "This is a V2 Character Card. Please update your frontend." ∧
    (backfillV2WithObsolescenceNotice d).get "data" = d.get "data" := by
  subst hd
  refine ⟨v2_run_mkV2 sv n de pe sc fm me cn sp phi ag cb tags cr cv ext
    hcb, ?_, ?_, ?_, ?_, ?_, ?_, ?_⟩ <;>
  · simp only [mkV2]
    rw [backfillV2_notice_top]
    simp [Json.get, Json.fields, lookupKey, obsolescenceNotice]

/-- Witness for C6 at the concrete card `sampleV2WithBook`. -/
theorem backfillV2_obsolescence_overwrites_witness :
    v2.run sampleV2WithBook = .ok sampleV2WithBook ∧
    (backfillV2WithObsolescenceNotice sampleV2WithBook).get "name" =
      .str "This is a V2 Character Card. Please update your frontend." ∧
    (backfillV2WithObsolescenceNotice sampleV2WithBook).get "description" =
      .str "This is a V2 Character Card. Please update your frontend." ∧
    (backfillV2WithObsolescenceNotice sampleV2WithBook).get "personality" =
      .str "This is a V2 Character Card. Please update your frontend." ∧
    (backfillV2WithObsolescenceNotice sampleV2WithBook).get "scenario" =
      .str "This is a V2 Character Card. Please update your frontend." ∧
    (backfillV2WithObsolescenceNotice sampleV2WithBook).get "first_mes" =
      .str "This is a V2 Character Card. Please update your frontend." ∧
    (backfillV2WithObsolescenceNotice sampleV2WithBook).get "mes_example" =
      .str "This is a V2 Character Card. Please update your frontend." ∧
    (backfillV2WithObsolescenceNotice sampleV2WithBook).get "data" =
      sampleV2WithBook.get "data" :=
  backfillV2_obsolescence_overwrites "2.0" "John" "a man" "cruel" "hates"
    "Hi!" "" "notes" "" "" [] (some sampleBook) [] "" "1.0"
    [("chub", .num 7)] sampleV2WithBook rfl
    (fun b hb => by injection hb with h; subst h; rfl)

/-- C7: a document identical to a valid V2 document except that `spec`
holds any value other than the literal string fails the `v2` validator,
`parseToV2`, and `safeParseToV2`, even though every other field
matches (the unmodified document validates). -/
theorem v2_spec_discriminant_strict (sv n de pe sc fm me cn sp phi : String)
    (ag : List String) (cb : Option Json) (tags : List String)
    (cr cv : String) (ext : List (String × Json)) (js : Json)
    (hcb : ∀ b, cb = some b → book.run b = .ok b)
    (hne : js ≠ .str "chara_card_v2") :
    v2.run (mkV2 sv n de pe sc fm me cn sp phi ag cb tags cr cv ext) =
      .ok (mkV2 sv n de pe sc fm me cn sp phi ag cb tags cr cv ext) ∧
    exOk (v2.run
      (mkV2WithSpec js sv n de pe sc fm me cn sp phi ag cb tags cr cv ext)) =
      false ∧
    exOk (parseToV2
      (mkV2WithSpec js sv n de pe sc fm me cn sp phi ag cb tags cr cv ext)) =
      false ∧
    exOk (safeParseToV2
      (mkV2WithSpec js sv n de pe sc fm me cn sp phi ag cb tags cr cv ext)) =
      false := by
  obtain ⟨es, hes⟩ := zLiteral_run_ne js "chara_card_v2" hne
  have hf : runField "spec" (zLiteral "chara_card_v2")
      (mkV2WithSpec js sv n de pe sc fm me cn sp phi ag cb tags cr cv
        ext).fields =
      .error (es.map (Issue.prepend (.key "spec"))) := by
    simp [runField, mkV2WithSpec, Json.fields, lookupKey, hes]
  obtain ⟨es2, hs2⟩ := runShape_head_err "spec" (zLiteral "chara_card_v2")
    [("spec_version", zString), ("data", zObject v2DataShape)] _ _ hf
  have hv2 : v2.run
      (mkV2WithSpec js sv n de pe sc fm me cn sp phi ag cb tags cr cv ext) =
      .error es2 := by
    have hs2x : runShape v2Shape
        [("spec", js), ("spec_version", .str sv),
         ("data", mkV2Data n de pe sc fm me cn sp phi ag cb tags cr cv ext)] =
        .error es2 := hs2
    simp only [v2, zObject, mkV2WithSpec]
    rw [hs2x]
    rfl
  have hnm : runField "name" zString
      (mkV2WithSpec js sv n de pe sc fm me cn sp phi ag cb tags cr cv
        ext).fields =
      .error [⟨[.key "name"], "invalid_type", "string", "undefined"⟩] := by
    simp [runField, mkV2WithSpec, Json.fields, lookupKey, zString]
  obtain ⟨es3, hs3⟩ := runShape_head_err "name" zString
    [("description", zString), ("personality", zString),
     ("scenario", zString), ("first_mes", zString),
     ("mes_example", zString)] _ _ hnm
  have hv1 : v1.run
      (mkV2WithSpec js sv n de pe sc fm me cn sp phi ag cb tags cr cv ext) =
      .error es3 := by
    have hs3x : runShape v1Shape
        [("spec", js), ("spec_version", .str sv),
         ("data", mkV2Data n de pe sc fm me cn sp phi ag cb tags cr cv ext)] =
        .error es3 := hs3
    simp only [v1, zObject, mkV2WithSpec]
    rw [hs3x]
    rfl
  exact ⟨v2_run_mkV2 sv n de pe sc fm me cn sp phi ag cb tags cr cv ext hcb,
    by simp [exOk, hv2],
    by simp [parseToV2, exOk, hv2, hv1],
    by simp [safeParseToV2, exOk, hv2, hv1]⟩

/-- Witness for C7: the sample card with `spec` set to the string
`chara_card_v3` fails everywhere, while the unmodified card validates. -/
theorem v2_spec_discriminant_strict_witness :
    v2.run (mkV2 "2.0" "Mary" "a woman" "generous" "loves" "Hello!" ""
        "my card" "" "sys" ["Heeey!"] none ["female", "oc"] "darkpriest"
        "" []) =
      .ok (mkV2 "2.0" "Mary" "a woman" "generous" "loves" "Hello!" ""
        "my card" "" "sys" ["Heeey!"] none ["female", "oc"] "darkpriest"
        "" []) ∧
    exOk (v2.run (mkV2WithSpec (.str "chara_card_v3") "2.0" "Mary"
      "a woman" "generous" "loves" "Hello!" "" "my card" "" "sys"
      ["Heeey!"] none ["female", "oc"] "darkpriest" "" [])) = false ∧
    exOk (parseToV2 (mkV2WithSpec (.str "chara_card_v3") "2.0" "Mary"
      "a woman" "generous" "loves" "Hello!" "" "my card" "" "sys"
      ["Heeey!"] none ["female", "oc"] "darkpriest" "" [])) = false ∧
    exOk (safeParseToV2 (mkV2WithSpec (.str "chara_card_v3") "2.0" "Mary"
      "a woman" "generous" "loves" "Hello!" "" "my card" "" "sys"
      ["Heeey!"] none ["female", "oc"] "darkpriest" "" [])) = false :=
  v2_spec_discriminant_strict "2.0" "Mary" "a woman" "generous" "loves"
    "Hello!" "" "my card" "" "sys" ["Heeey!"] none ["female", "oc"]
    "darkpriest" "" [] (.str "chara_card_v3")
    (fun b hb => nomatch hb) (by simp)

/-- C8: the throwing and non-throwing parsers agree on every input: they
compute the same tagged result (same success value, same failure
error). -/
theorem parseToV2_eq_safeParseToV2 (x : Json) :
    parseToV2 x = safeParseToV2 x := by
  cases h2 : v2.run x with
  | ok d => simp [parseToV2, safeParseToV2, h2]
  | error e =>
    cases h1 : v1.run x with
    | error e1 => simp [parseToV2, safeParseToV2, h2, h1]
    | ok c =>
      obtain ⟨n, de, pe, sc, fm, me, rfl⟩ := v1_ok_inv x c h1
      simp [parseToV2, safeParseToV2, h2, h1, v2_run_v1ToV2_mkV1]

/-- C9: the `backfilledV2` validator is strictly more restrictive than
`v2`: everything it accepts, `v2` accepts, and the valid V2 card
`sampleV2` (which lacks the six top-level V1 fields) is accepted by
`v2` but rejected by `backfilledV2`. -/
theorem backfilledV2_stricter_than_v2 :
    (∀ j : Json, exOk (backfilledV2.run j) = true →
      exOk (v2.run j) = true) ∧
    v2.run sampleV2 = .ok sampleV2 ∧
    exOk (backfilledV2.run sampleV2) = false := by
  refine ⟨?_, rfl, rfl⟩
  intro j h
  cases j with
  | obj kvs =>
    simp only [backfilledV2, zObject] at h
    cases hs : runShape (mergeShape v1Shape v2Shape) kvs with
    | error es => rw [hs] at h; simp [Except.map, exOk] at h
    | ok out =>
      have hm : runShape (v1Shape ++ v2Shape) kvs = .ok out := hs
      obtain ⟨o, ho⟩ := runShape_append_ok v1Shape v2Shape kvs out hm
      simp [v2, zObject, ho, Except.map, exOk]
  | str s => simp [backfilledV2, zObject, exOk] at h
  | num n => simp [backfilledV2, zObject, exOk] at h
  | bool b => simp [backfilledV2, zObject, exOk] at h
  | null => simp [backfilledV2, zObject, exOk] at h
  | arr xs => simp [backfilledV2, zObject, exOk] at h

/-- Witness for C9's inclusion at a concrete input: the backfilled
sample card is accepted by `backfilledV2`, hence by `v2`. -/
theorem backfilledV2_stricter_than_v2_witness :
    exOk (backfilledV2.run (backfillV2 sampleV2)) = true ∧
    exOk (v2.run (backfillV2 sampleV2)) = true :=
  ⟨rfl, backfilledV2_stricter_than_v2.1 (backfillV2 sampleV2) rfl⟩

/-- Every canonical V2 `data` object (with a valid book, when present)
validates to itself under the `data` field's object schema. -/
theorem v2Data_run_mkV2Data (n de pe sc fm me cn sp phi : String)
    (ag : List String) (cb : Option Json) (tags : List String)
    (cr cv : String) (ext : List (String × Json))
    (hcb : ∀ b, cb = some b → book.run b = .ok b) :
    (zObject v2DataShape).run
        (mkV2Data n de pe sc fm me cn sp phi ag cb tags cr cv ext) =
      .ok (mkV2Data n de pe sc fm me cn sp phi ag cb tags cr cv ext) := by
  cases cb with
  | none =>
    simp [v2DataShape, v2DataExtraShape, v1Shape, mergeShape, mkV2Data,
      zObject, runShape, runField, lookupKey, zString_run_str,
      zOptional_run, zOptional_accUndefined, zArray_run_strings,
      zRecord_run_any, Except.map]
  | some b =>
    have hb := hcb b rfl
    simp [v2DataShape, v2DataExtraShape, v1Shape, mergeShape, mkV2Data,
      zObject, runShape, runField, lookupKey, zString_run_str,
      zOptional_run, zOptional_accUndefined, zArray_run_strings,
      zRecord_run_any, hb, Except.map]

/-- `z.object` on an object value parses by shape. -/
theorem zObject_run_obj (fields : Shape) (kvs : List (String × Json)) :
    (zObject fields).run (.obj kvs) = (runShape fields kvs).map .obj := rfl

/-- `v2` validation of a document whose first three keys are the
canonical V2 envelope (with a self-validating `data` object) ignores
and strips any keys appended after them. -/
theorem v2_run_append (svv : String) (dt : Json)
    (rest : List (String × Json))
    (hdt : (zObject v2DataShape).run dt = .ok dt) :
    v2.run (.obj ([("spec", .str "chara_card_v2"),
        ("spec_version", .str svv), ("data", dt)] ++ rest)) =
      .ok (.obj [("spec", .str "chara_card_v2"),
        ("spec_version", .str svv), ("data", dt)]) := by
  simp [v2, v2Shape, zObject_run_obj, runShape, runField, lookupKey,
    zString_run_str, zLiteral_run_self, hdt, Except.map]

/-- C10: for a V2 document with exactly the schema's fields, parsing
its backfilled form recovers the original document: the six top-level
V1 fields added by `backfillV2` are stripped again by V2 validation. -/
theorem parseToV2_backfillV2_roundtrip (sv n de pe sc fm me cn sp phi : String)
    (ag : List String) (cb : Option Json) (tags : List String)
    (cr cv : String) (ext : List (String × Json)) (d : Json)
    (hd : d = mkV2 sv n de pe sc fm me cn sp phi ag cb tags cr cv ext)
    (hcb : ∀ b, cb = some b → book.run b = .ok b) :
    parseToV2 (backfillV2 d) = .ok d := by
  subst hd
  have hdt := v2Data_run_mkV2Data n de pe sc fm me cn sp phi ag cb tags
    cr cv ext hcb
  have h2 : v2.run
      (backfillV2 (mkV2 sv n de pe sc fm me cn sp phi ag cb tags cr cv ext)) =
      .ok (mkV2 sv n de pe sc fm me cn sp phi ag cb tags cr cv ext) := by
    simp only [mkV2]
    rw [backfillV2_top]
    exact v2_run_append sv _ _ hdt
  simp [parseToV2, h2]

/-- Witness for C10 at the concrete card `sampleV2WithBook`. -/
theorem parseToV2_backfillV2_roundtrip_witness :
    parseToV2 (backfillV2 sampleV2WithBook) = .ok sampleV2WithBook :=
  parseToV2_backfillV2_roundtrip "2.0" "John" "a man" "cruel" "hates"
    "Hi!" "" "notes" "" "" [] (some sampleBook) [] "" "1.0"
    [("chub", .num 7)] sampleV2WithBook rfl
    (fun b hb => by injection hb with h; subst h; rfl)
